import Mathlib

/- Verification of the Curator agent tooling (app/agents/curator/tools.py):
   the two-stage AI-relevance scoring pipeline (`_keyword_scoring`,
   `_llm_validation`, `_scan_stock_for_ai`) and the trading-universe
   upsert/query helpers (`_update_trading_universe`, `_get_trading_universe`).
   Network fetches are modelled by their already-fetched payloads: a profile
   fetch that failed (or returned a falsy payload) is `none`, likewise the
   news fetch; timestamps are abstract naturals passed in as `now`. -/

/-- Python substring containment over character lists: `pat` occurs
contiguously inside `hay`. -/
def subOccurs (hay pat : List Char) : Bool :=
  hay.tails.any (fun t => pat.isPrefixOf t)

/-- Models the Python expression `kw in text` on strings. -/
def strContains (text kw : String) : Bool :=
  subOccurs text.toList kw.toList

/-- Python `str.lower()` (ASCII case mapping), over the character list. -/
def strLower (s : String) : String := String.mk (s.data.map Char.toLower)

/-- Python `str.upper()` (ASCII case mapping), over the character list. -/
def strUpper (s : String) : String := String.mk (s.data.map Char.toUpper)

/-- Python `str.strip()`: drop whitespace from both ends. -/
def strTrim (s : String) : String :=
  String.mk (((s.data.dropWhile Char.isWhitespace).reverse.dropWhile
    Char.isWhitespace).reverse)

/-- `AI_KEYWORDS['tier1']['keywords']`: strong AI signals, 10 points each. -/
def tier1Keywords : List String :=
  ["artificial intelligence", "machine learning", "deep learning",
   "neural network", "large language model", "llm", "generative ai",
   "gpt", "transformer model", "ai chip", "gpu inference", "nvidia gpu",
   "neural processor", "tpu", "ai accelerator"]

/-- `AI_KEYWORDS['tier2']['keywords']`: moderate signals, 5 points each. -/
def tier2Keywords : List String :=
  ["openai partnership", "anthropic", "ai partnership",
   "data center", "cloud ai", "ai-powered", "ai integration",
   "automation", "predictive analytics", "computer vision",
   "natural language processing", "nlp", "ai model"]

/-- `AI_KEYWORDS['tier3']['keywords']`: defined in the taxonomy but never
consulted by `_keyword_scoring`. -/
def tier3Keywords : List String :=
  ["algorithm", "data science", "analytics platform",
   "intelligent", "smart technology", "automated"]

/-- `AI_KEYWORDS['tier1']['categories']`, in dict insertion order. -/
def categoryTable : List (String × List String) :=
  [("ai_chip", ["gpu", "ai chip", "neural processor", "tpu", "ai accelerator",
                "nvidia", "cuda"]),
   ("ai_software", ["llm", "generative ai", "ai platform", "ai agent",
                    "chatgpt", "gpt"]),
   ("ai_cloud", ["ai inference", "model training", "ai infrastructure",
                 "gpu cloud"])]

/-- The keywords of `kws` found in `text`, in list order: the Python loop
`for keyword in kws: if keyword in text: ...` visits exactly these. -/
def matchedKeywords (kws : List String) (text : String) : List String :=
  kws.filter (fun k => strContains text k)

/-- Evidence entry `f"Description: '{keyword}'"`. -/
def descEvidenceStr (k : String) : String := "Description: \x27" ++ k ++ "\x27"

/-- Evidence entry `f"News: '{keyword}' in headline"`. -/
def newsEvidenceStr (k : String) : String := "News: \x27" ++ k ++ "\x27 in headline"

/-- Description-scan score: every tier-1 keyword in the lowercased
description adds 10, every tier-2 keyword adds 5 (no break in these loops). -/
def descScore (description : String) : Nat :=
  10 * (matchedKeywords tier1Keywords (strLower description)).length
    + 5 * (matchedKeywords tier2Keywords (strLower description)).length

/-- Description-scan evidence: one entry per matched keyword, tier-1 entries
first, each tier in keyword-list order. -/
def descEvidence (description : String) : List String :=
  (matchedKeywords tier1Keywords (strLower description)).map descEvidenceStr
    ++ (matchedKeywords tier2Keywords (strLower description)).map descEvidenceStr

/-- One news article as consumed by the scanner. -/
structure Article where
  headline : String
  summary : String
deriving DecidableEq

/-- `text = f"{headline} {summary}"` over the lowercased fields. -/
def articleText (a : Article) : String :=
  strLower a.headline ++ " " ++ strLower a.summary

/-- First tier-1 keyword (in list order) occurring in the article text; the
Python loop breaks at the first hit. -/
def articleTier1Hit (a : Article) : Option String :=
  tier1Keywords.find? (fun k => strContains (articleText a) k)

/-- First tier-2 keyword occurring in the article text (loop breaks at the
first hit). -/
def articleTier2Hit (a : Article) : Option String :=
  tier2Keywords.find? (fun k => strContains (articleText a) k)

/-- Score contribution of one article: 10 if some tier-1 keyword hit
(counted once), plus 5 if some tier-2 keyword hit (counted once). -/
def articleScore (a : Article) : Nat :=
  (match articleTier1Hit a with
   | some _ => 10
   | none => 0)
    + (match articleTier2Hit a with
       | some _ => 5
       | none => 0)

/-- Evidence contribution of one article: only the tier-1 hit appends an
entry; the tier-2 branch scores without recording evidence. -/
def articleEvidence (a : Article) : List String :=
  match articleTier1Hit a with
  | some k => [newsEvidenceStr k]
  | none => []

/-- News-scan score over `news_data[:10]`. -/
def newsScore (articles : List Article) : Nat :=
  ((articles.take 10).map articleScore).sum

/-- News-scan evidence over `news_data[:10]`. -/
def newsEvidence (articles : List Article) : List String :=
  ((articles.take 10).map articleEvidence).flatten

/-- Finnhub `profile2` payload fields used by the scanner; `description`
defaults to the empty string via `.get('description', '')`. -/
structure Profile where
  name : Option String
  finnhubIndustry : Option String
  description : String
deriving DecidableEq

/-- Accumulated raw keyword score before the cap: a failed (or falsy) profile
or news fetch contributes nothing. -/
def kwRawScore (profile : Option Profile) (news : Option (List Article)) : Nat :=
  (match profile with
   | some p => descScore p.description
   | none => 0)
    + (match news with
       | some arts => newsScore arts
       | none => 0)

/-- Accumulated evidence list, description entries first then news entries. -/
def kwEvidence (profile : Option Profile) (news : Option (List Article)) :
    List String :=
  (match profile with
   | some p => descEvidence p.description
   | none => [])
    ++ (match news with
        | some arts => newsEvidence arts
        | none => [])

/-- `_categorize_stock`: first category (in table order) one of whose
keywords occurs in the lowercased space-joined evidence; otherwise the
default `ai_beneficiary`. -/
def _categorize_stock (evidence : List String) : String :=
  let evidence_text := strLower (String.intercalate " " evidence)
  match categoryTable.find? (fun c => c.2.any (fun k => strContains evidence_text k)) with
  | some c => c.1
  | none => "ai_beneficiary"

/-- The dict returned by `_keyword_scoring`. -/
structure ScanResult where
  ticker : String
  company_name : String
  sector : Option String
  has_ai : Bool
  score : Nat
  category : String
  evidence : String
deriving DecidableEq

/-- `_keyword_scoring`, stage 1 of the scan, applied to the fetched payloads.
The internal `category` variable stays `none` when the capped score is 0; the
returned dict stores `category or 'ai_beneficiary'`. -/
def _keyword_scoring (ticker : String) (profile : Option Profile)
    (news : Option (List Article)) : ScanResult :=
  let score := min (kwRawScore profile news) 100
  let evidence := kwEvidence profile news
  let category : Option String :=
    if 0 < score then some (_categorize_stock evidence) else none
  { ticker := ticker
  , company_name :=
      (match profile with
       | some p => p.name.getD ticker
       | none => ticker)
  , sector :=
      (match profile with
       | some p => p.finnhubIndustry
       | none => none)
  , has_ai := decide (40 ≤ score)
  , score := score
  , category := category.getD "ai_beneficiary"
  , evidence := String.intercalate " | " (evidence.take 5) }

/-- The dict returned by `_llm_validation`. -/
structure LLMResult where
  adjusted_score : Nat
  category : String
  reasoning : String
deriving DecidableEq

/-- `_llm_validation`, stage 2: the shipped code skips the LLM call and
returns the stage-1 score and category unchanged with a fixed rationale. -/
def _llm_validation (_ticker : String) (stage1 : ScanResult) : LLMResult :=
  { adjusted_score := stage1.score
  , category := stage1.category
  , reasoning := "LLM validation not implemented yet - using keyword scoring" }

/-- The error payload produced by the `except` clause of
`_scan_stock_for_ai`: `{'ticker', 'error', 'has_ai': False, 'score': 0}`. -/
structure ErrorResult where
  ticker : String
  error : String
  has_ai : Bool
  score : Nat
deriving DecidableEq

/-- A scan either returns a full result dict or the error payload. -/
inductive ScanOutput where
  | ok (r : ScanResult) : ScanOutput
  | err (e : ErrorResult) : ScanOutput
deriving DecidableEq

/-- The `score` field of whichever dict the scan returned. -/
def ScanOutput.scoreOf : ScanOutput → Nat
  | .ok r => r.score
  | .err e => e.score

/-- The `has_ai` field of whichever dict the scan returned. -/
def ScanOutput.hasAiOf : ScanOutput → Bool
  | .ok r => r.has_ai
  | .err e => e.has_ai

/-- `ticker.upper().strip()`. -/
def normTicker (t : String) : String := strTrim (strUpper t)

/-- A validator call either yields an `LLMResult` or raises (with a
message); raising models a timeout, rate limit or malformed response. -/
def Validator : Type := String → ScanResult → Except String LLMResult

/-- The validator the shipped code actually calls: the total stub
`_llm_validation`, which never raises. -/
def okValidator : Validator := fun t r => Except.ok (_llm_validation t r)

/-- `_scan_stock_for_ai` with the validator call made explicit, returning
the output together with the number of validator invocations. The band test
`30 <= result['score'] <= 70` guards the single call site; an exception
anywhere in the `try` block lands in the `except` clause, which returns the
error payload. -/
def _scan_stock_for_ai_with (v : Validator) (ticker0 : String)
    (profile : Option Profile) (news : Option (List Article)) :
    ScanOutput × Nat :=
  let ticker := normTicker ticker0
  let result := _keyword_scoring ticker profile news
  if 30 ≤ result.score ∧ result.score ≤ 70 then
    match v ticker result with
    | Except.ok llm =>
        (ScanOutput.ok { result with
            score := llm.adjusted_score
          , category := llm.category
          , evidence := result.evidence ++ " | LLM: " ++ llm.reasoning }, 1)
    | Except.error e =>
        (ScanOutput.err { ticker := ticker, error := e, has_ai := false, score := 0 }, 1)
  else
    (ScanOutput.ok result, 0)

/-- `_scan_stock_for_ai` as shipped (stub validator, never raises). -/
def _scan_stock_for_ai (ticker0 : String) (profile : Option Profile)
    (news : Option (List Article)) : ScanOutput :=
  (_scan_stock_for_ai_with okValidator ticker0 profile news).1

/-- Number of validator invocations performed by the shipped scan. -/
def validatorCalls (ticker0 : String) (profile : Option Profile)
    (news : Option (List Article)) : Nat :=
  (_scan_stock_for_ai_with okValidator ticker0 profile news).2

/-- A validator that always raises with message `msg`. -/
def failValidator (msg : String) : Validator := fun _ _ => Except.error msg

/-- `_keyword_scoring` including the credential guard at its top: with
`FINNHUB_API_KEY` unset it raises `"FINNHUB_API_KEY not set"` before any
fetch is attempted; with the key set it proceeds on the fetched payloads. -/
def _keyword_scoring_guarded (apiKeySet : Bool) (ticker : String)
    (profile : Option Profile) (news : Option (List Article)) :
    Except String ScanResult :=
  if apiKeySet then Except.ok (_keyword_scoring ticker profile news)
  else Except.error "FINNHUB_API_KEY not set"

/-- The shipped scan including the credential guard: an exception raised by
stage 1 reaches the same `except` clause as any other, which returns the
error payload (a dict carrying only `ticker`, `error`, `has_ai` and
`score` — no `category` and no `evidence` key); with the key set the scan
proceeds exactly as `_scan_stock_for_ai`. -/
def _scan_stock_for_ai_env (apiKeySet : Bool) (ticker0 : String)
    (profile : Option Profile) (news : Option (List Article)) : ScanOutput :=
  let ticker := normTicker ticker0
  match _keyword_scoring_guarded apiKeySet ticker profile news with
  | Except.error e =>
      ScanOutput.err { ticker := ticker, error := e, has_ai := false, score := 0 }
  | Except.ok _ => _scan_stock_for_ai ticker0 profile news

/-- The recognized keys of the `data_json` argument of
`_update_trading_universe`; `none` means the key is absent. -/
structure UpsertFields where
  company_name : Option String
  sector : Option String
  category : Option String
  score : Option Int
  is_active : Option Bool
  notes : Option String
deriving DecidableEq

/-- The `upsert_data` dict sent to the store: `ticker` and `last_scanned`
are always present, the rest only under the conditions coded in
`_update_trading_universe`. -/
structure UpsertData where
  ticker : String
  last_scanned : Nat
  company_name : Option String
  sector : Option String
  category : Option String
  score : Option Int
  is_active : Option Bool
  deactivated_at : Option Nat
  notes : Option String
  last_mention : Option Nat
deriving DecidableEq

/-- `_update_trading_universe`: builds the `upsert_data` dict. `now` stands
for `datetime.utcnow()` (the code reads the clock a few times within the
same call; the instants are identified). -/
def _update_trading_universe (ticker0 : String) (data : UpsertFields)
    (now : Nat) : UpsertData :=
  { ticker := normTicker ticker0
  , last_scanned := now
  , company_name := data.company_name
  , sector := data.sector
  , category := data.category
  , score := data.score
  , is_active := data.is_active
  , deactivated_at :=
      (match data.is_active with
       | some false => some now
       | _ => none)
  , notes := data.notes
  , last_mention := if 0 < data.score.getD 0 then some now else none }

/-- A persisted universe record (all payload columns nullable). -/
structure UniverseRecord where
  ticker : String
  company_name : Option String
  sector : Option String
  category : Option String
  score : Option Int
  is_active : Option Bool
  notes : Option String
  last_scanned : Option Nat
  last_mention : Option Nat
  deactivated_at : Option Nat
deriving DecidableEq

/-- A column present in the upsert dict overwrites; an absent one keeps the
stored value. -/
def updField {α : Type} (new old : Option α) : Option α :=
  match new with
  | some v => some v
  | none => old

/-- Modelled from the spec: the Universe Store's upsert-by-key applies the
columns present in `upsert_data` to the existing row and leaves absent
columns untouched (the store itself — `supabase.table(...).upsert(...)` — is
outside this repository). -/
def applyUpsert (old : UniverseRecord) (u : UpsertData) : UniverseRecord :=
  { ticker := u.ticker
  , company_name := updField u.company_name old.company_name
  , sector := updField u.sector old.sector
  , category := updField u.category old.category
  , score := updField u.score old.score
  , is_active := updField u.is_active old.is_active
  , notes := updField u.notes old.notes
  , last_scanned := some u.last_scanned
  , last_mention := updField u.last_mention old.last_mention
  , deactivated_at := updField u.deactivated_at old.deactivated_at }

/-- A stored row as seen by the query helper (the columns it filters on). -/
structure UniverseRow where
  ticker : String
  score : Int
  is_active : Bool
  category : String
deriving DecidableEq

/-- The recognized keys of the `filters_json` argument. -/
structure QueryFilters where
  is_active : Option Bool
  min_score : Option Int
  max_score : Option Int
  category : Option String
  limit : Option Nat
deriving DecidableEq

/-- Conjunction of the filter clauses `_get_trading_universe` attaches:
`eq('is_active', ·)`, `gte('score', min_score)`, `lte('score', max_score)`,
`eq('category', ·)` — each only when its key is present. -/
def rowMatches (f : QueryFilters) (r : UniverseRow) : Bool :=
  (match f.is_active with
   | some b => r.is_active == b
   | none => true)
    && (match f.min_score with
        | some m => decide (m ≤ r.score)
        | none => true)
    && (match f.max_score with
        | some m => decide (r.score ≤ m)
        | none => true)
    && (match f.category with
        | some c => r.category == c
        | none => true)

/-- Ordering relation realizing `order('score', desc=True)`: `a` may come
before `b` when `a`'s score is at least `b`'s. -/
def rowGe (a b : UniverseRow) : Prop := b.score ≤ a.score

instance : DecidableRel rowGe :=
  fun a b => inferInstanceAs (Decidable (b.score ≤ a.score))

instance : IsTotal UniverseRow rowGe :=
  ⟨fun a b => (le_total b.score a.score).imp (fun h => h) (fun h => h)⟩

instance : IsTrans UniverseRow rowGe :=
  ⟨fun _ _ _ hab hbc => le_trans hbc hab⟩

/-- Modelled from the spec: the store returns the filtered rows ordered by
score descending (a stable sort, so ties keep store-native order); the
ordering is executed by the store, outside this repository. -/
def orderScoreDesc (rows : List UniverseRow) : List UniverseRow :=
  rows.insertionSort rowGe

/-- The payload `{'count': len(result.data), 'stocks': result.data}`. -/
structure QueryResult where
  count : Nat
  stocks : List UniverseRow
deriving DecidableEq

/-- `_get_trading_universe` applied to a store snapshot: filter, order by
score descending, cap at `limit` (default 100), report count and rows. -/
def _get_trading_universe (f : QueryFilters) (store : List UniverseRow) :
    QueryResult :=
  let matching := orderScoreDesc (store.filter (rowMatches f))
  let limited := matching.take (f.limit.getD 100)
  { count := limited.length, stocks := limited }

/-- A `find?` succeeds exactly when some element satisfies the predicate. -/
theorem find?_isSome_eq_any {α : Type} (p : α → Bool) (l : List α) :
    (l.find? p).isSome = l.any p := by
  cases h : l.find? p with
  | some a =>
    have : l.any p = true :=
      List.any_eq_true.mpr ⟨a, List.mem_of_find?_eq_some h, List.find?_some h⟩
    simp [this]
  | none =>
    have : ∀ x ∈ l, ¬ p x = true := List.find?_eq_none.mp h
    have hany : l.any p = false := by
      cases hx : l.any p with
      | true =>
        rcases List.any_eq_true.mp hx with ⟨x, hxl, hpx⟩
        exact absurd hpx (this x hxl)
      | false => rfl
    simp [hany]

/-- `any` is monotone under pointwise implication of predicates. -/
theorem any_mono {α : Type} {p q : α → Bool} (l : List α)
    (h : ∀ x, p x = true → q x = true) (hp : l.any p = true) :
    l.any q = true := by
  rcases List.any_eq_true.mp hp with ⟨x, hxl, hpx⟩
  exact List.any_eq_true.mpr ⟨x, hxl, h x hpx⟩

/-- Monotonicity of a 0-or-`n` conditional payout. -/
theorem if_le_if {c d : Prop} [Decidable c] [Decidable d] (n : Nat)
    (h : c → d) : (if c then n else 0) ≤ (if d then n else 0) := by
  by_cases hc : c
  · simp [hc, h hc]
  · simp [hc]

/-- An article scores 10 when any tier-1 keyword occurs in its text plus 5
when any tier-2 keyword occurs: the break makes each tier count at most once
per article. -/
theorem articleScore_eq_any (a : Article) :
    articleScore a
      = (if tier1Keywords.any (fun k => strContains (articleText a) k) then 10 else 0)
        + (if tier2Keywords.any (fun k => strContains (articleText a) k) then 5 else 0) := by
  rw [← find?_isSome_eq_any, ← find?_isSome_eq_any]
  unfold articleScore articleTier1Hit articleTier2Hit
  cases h1 : tier1Keywords.find? (fun k => strContains (articleText a) k) <;>
    cases h2 : tier2Keywords.find? (fun k => strContains (articleText a) k) <;>
      simp [h1, h2]

/-- C1: the claim says every distinct tier-1 keyword in an article's text
adds 10 points, so an article containing two different tier-1 keywords
("llm" and "gpt") would add 20. In the code the tier-1 loop breaks at the
first hit: the article below matches two distinct tier-1 keywords yet the
whole scan scores only 10. -/
theorem c1_two_tier1_keywords_counterexample :
    (matchedKeywords tier1Keywords (articleText ⟨"llm gpt", ""⟩)).length = 2
      ∧ (_keyword_scoring "T" none (some [⟨"llm gpt", ""⟩])).score = 10 := by
  constructor
  · decide
  · decide

/-- C1 (amended): in the keyword-scoring stage each scanned article
contributes 10 points when at least one tier-1 keyword occurs in its
headline+summary text — regardless of how many distinct tier-1 keywords
occur, because the loop breaks at the first hit in the tier — and likewise
5 points when at least one tier-2 keyword occurs: at most one hit counts
per tier per article. -/
theorem c1_article_tier_single_count (a : Article) :
    articleScore a
      = (if tier1Keywords.any (fun k => strContains (articleText a) k) then 10 else 0)
        + (if tier2Keywords.any (fun k => strContains (articleText a) k) then 5 else 0) :=
  articleScore_eq_any a

/-- C2: the claim says a zero-score scan leaves `category` unset. The code
returns `category or 'ai_beneficiary'`, so a scan with no keyword evidence
at all (both fetches empty-handed, score 0) still carries the defaulted
category `ai_beneficiary`, an enumeration value. -/
theorem c2_category_default_counterexample :
    (_keyword_scoring "TEST" none none).score = 0
      ∧ (_keyword_scoring "TEST" none none).has_ai = false
      ∧ (_keyword_scoring "TEST" none none).category = "ai_beneficiary" := by
  refine ⟨by decide, by decide, by decide⟩

/-- C2 (amended): for every scan whose accumulated score is 0, the returned
result has `score == 0`, `has_ai == false`, and its `category` field is the
default `ai_beneficiary` (the internal category variable is left unset, but
the returned dict defaults it). -/
theorem c2_score_zero_defaults (t : String) (p : Option Profile)
    (n : Option (List Article))
    (h : (_keyword_scoring t p n).score = 0) :
    (_keyword_scoring t p n).has_ai = false
      ∧ (_keyword_scoring t p n).category = "ai_beneficiary" := by
  simp only [_keyword_scoring] at h ⊢
  rw [h]
  simp

/-- Witness for C2 (amended) at a concrete zero-score input. -/
theorem c2_score_zero_defaults_witness :
    (_keyword_scoring "TEST" none none).has_ai = false
      ∧ (_keyword_scoring "TEST" none none).category = "ai_beneficiary" :=
  c2_score_zero_defaults "TEST" none none (by decide)

/-- C3: the Language Model Validator is invoked exactly once iff the
keyword-stage score lies in the inclusive band [30, 70]; when it is invoked
its adjusted score replaces the keyword-stage score and lies within ±20 of
it (the shipped stub returns the keyword score itself, a shift of 0), and
the returned category is the validator's; for scores outside the band the
keyword-stage result is returned untouched and the validator is never
invoked. -/
theorem c3_borderline_band_validation (t : String) (p : Option Profile)
    (n : Option (List Article)) :
    validatorCalls t p n
        = (if 30 ≤ (_keyword_scoring (normTicker t) p n).score
              ∧ (_keyword_scoring (normTicker t) p n).score ≤ 70
           then 1 else 0)
      ∧ _scan_stock_for_ai t p n
          = (if 30 ≤ (_keyword_scoring (normTicker t) p n).score
                ∧ (_keyword_scoring (normTicker t) p n).score ≤ 70
             then ScanOutput.ok { _keyword_scoring (normTicker t) p n with
                    score := (_llm_validation (normTicker t)
                        (_keyword_scoring (normTicker t) p n)).adjusted_score
                  , category := (_llm_validation (normTicker t)
                        (_keyword_scoring (normTicker t) p n)).category
                  , evidence := (_keyword_scoring (normTicker t) p n).evidence
                      ++ " | LLM: " ++ (_llm_validation (normTicker t)
                        (_keyword_scoring (normTicker t) p n)).reasoning }
             else ScanOutput.ok (_keyword_scoring (normTicker t) p n))
      ∧ ((_llm_validation (normTicker t)
            (_keyword_scoring (normTicker t) p n)).adjusted_score : Int)
          - ((_keyword_scoring (normTicker t) p n).score : Int) ≤ 20
      ∧ ((_keyword_scoring (normTicker t) p n).score : Int)
          - ((_llm_validation (normTicker t)
              (_keyword_scoring (normTicker t) p n)).adjusted_score : Int) ≤ 20 := by
  refine ⟨?_, ?_, ?_, ?_⟩
  · by_cases h : 30 ≤ (_keyword_scoring (normTicker t) p n).score
        ∧ (_keyword_scoring (normTicker t) p n).score ≤ 70 <;>
      simp [validatorCalls, _scan_stock_for_ai_with, okValidator, h]
  · by_cases h : 30 ≤ (_keyword_scoring (normTicker t) p n).score
        ∧ (_keyword_scoring (normTicker t) p n).score ≤ 70 <;>
      simp [_scan_stock_for_ai, _scan_stock_for_ai_with, okValidator, h]
  · simp [_llm_validation]
  · simp [_llm_validation]

/-- C4: the claim says a failed validator call leaves the keyword-stage
score and category in place. In the code the `except` clause returns the
error payload `{'ticker', 'error', 'has_ai': False, 'score': 0}` instead:
here the keyword stage scores 30 (inside the band), the validator raises,
and the scan returns score 0, discarding the keyword-stage result. -/
theorem c4_validator_failure_counterexample :
    (_keyword_scoring "T" (some ⟨none, none, "llm gpt tpu"⟩) none).score = 30
      ∧ (_scan_stock_for_ai_with (failValidator "timeout") "T"
            (some ⟨none, none, "llm gpt tpu"⟩) none).1
          = ScanOutput.err
              { ticker := "T", error := "timeout", has_ai := false, score := 0 } :=
  ⟨by decide, by decide⟩

/-- C4 (amended): for every scan whose keyword-stage score lies in [30, 70],
if the validator call raises the scan does not abort: it returns the error
payload carrying the ticker, the error message, `has_ai = false` and
`score = 0` — the keyword-stage score and category are discarded rather
than retained, and no validation-skipped marker is recorded; outside the
band the validator is not reached and the keyword-stage result is returned
unchanged. -/
theorem c4_validator_failure_error_payload (msg t : String)
    (p : Option Profile) (n : Option (List Article)) :
    _scan_stock_for_ai_with (failValidator msg) t p n
      = (if 30 ≤ (_keyword_scoring (normTicker t) p n).score
            ∧ (_keyword_scoring (normTicker t) p n).score ≤ 70
         then (ScanOutput.err
                 { ticker := normTicker t, error := msg,
                   has_ai := false, score := 0 }, 1)
         else (ScanOutput.ok (_keyword_scoring (normTicker t) p n), 0)) := by
  by_cases h : 30 ≤ (_keyword_scoring (normTicker t) p n).score
      ∧ (_keyword_scoring (normTicker t) p n).score ≤ 70 <;>
    simp [_scan_stock_for_ai_with, failValidator, h]

/-- C5: the claim says a scan in which both fetches fail returns `category`
unset. The code returns the defaulted category `ai_beneficiary` (score 0,
`has_ai` false and empty evidence do hold). -/
theorem c5_total_fetch_failure_counterexample :
    _scan_stock_for_ai "msft" none none
      = ScanOutput.ok
          { ticker := "MSFT", company_name := "MSFT",
            sector := none, has_ai := false, score := 0,
            category := "ai_beneficiary", evidence := "" } := by
  decide

/-- C5 (amended): if both the profile fetch and the news fetch fail, the
scan does not fail and in every mode returns score 0 and `has_ai == false`.
When the failure is a missing API credential, stage 1 raises before any
fetch and the scan returns the except-clause error payload, which carries
no `category` and no `evidence` field at all; when the credential is set
and both fetches fail (network error or malformed response), the scan
returns a full result with an empty evidence string and the category
defaulted to `ai_beneficiary` (not unset). -/
theorem c5_total_fetch_failure (t : String) :
    _scan_stock_for_ai_env false t none none
        = ScanOutput.err
            { ticker := normTicker t, error := "FINNHUB_API_KEY not set",
              has_ai := false, score := 0 }
      ∧ _scan_stock_for_ai_env true t none none
          = ScanOutput.ok
              { ticker := normTicker t, company_name := normTicker t,
                sector := none, has_ai := false, score := 0,
                category := "ai_beneficiary", evidence := "" } := by
  constructor
  · simp [_scan_stock_for_ai_env, _keyword_scoring_guarded]
  · show _scan_stock_for_ai t none none
        = ScanOutput.ok
            { ticker := normTicker t, company_name := normTicker t,
              sector := none, has_ai := false, score := 0,
              category := "ai_beneficiary", evidence := "" }
    simp [_scan_stock_for_ai, _scan_stock_for_ai_with, okValidator,
      _keyword_scoring, kwRawScore, kwEvidence]
    rfl

/-- C6: every upsert refreshes `last_scanned` to the current time;
`last_mention` is set to the current time iff a `score` field is present in
the input and positive (a score-0 or score-free upsert leaves the stored
`last_mention` untouched); `deactivated_at` is stamped exactly when
`is_active` is explicitly set to false; every field absent from the input
is left untouched on the existing record; the ticker is normalized. -/
theorem c6_upsert_field_semantics (ticker0 : String) (data : UpsertFields)
    (now : Nat) (old : UniverseRecord) :
    (_update_trading_universe ticker0 data now).ticker = normTicker ticker0
      ∧ (_update_trading_universe ticker0 data now).last_scanned = now
      ∧ (applyUpsert old (_update_trading_universe ticker0 data now)).last_scanned
          = some now
      ∧ ((_update_trading_universe ticker0 data now).last_mention.isSome = true
          ↔ ∃ s, data.score = some s ∧ 0 < s)
      ∧ (applyUpsert old (_update_trading_universe ticker0 data now)).last_mention
          = (if 0 < data.score.getD 0 then some now else old.last_mention)
      ∧ (_update_trading_universe ticker0 data now).deactivated_at
          = (if data.is_active = some false then some now else none)
      ∧ (applyUpsert old (_update_trading_universe ticker0 data now)).deactivated_at
          = (if data.is_active = some false then some now else old.deactivated_at)
      ∧ (applyUpsert old (_update_trading_universe ticker0 data now)).company_name
          = (match data.company_name with
             | some v => some v
             | none => old.company_name)
      ∧ (applyUpsert old (_update_trading_universe ticker0 data now)).sector
          = (match data.sector with
             | some v => some v
             | none => old.sector)
      ∧ (applyUpsert old (_update_trading_universe ticker0 data now)).category
          = (match data.category with
             | some v => some v
             | none => old.category)
      ∧ (applyUpsert old (_update_trading_universe ticker0 data now)).score
          = (match data.score with
             | some v => some v
             | none => old.score)
      ∧ (applyUpsert old (_update_trading_universe ticker0 data now)).is_active
          = (match data.is_active with
             | some v => some v
             | none => old.is_active)
      ∧ (applyUpsert old (_update_trading_universe ticker0 data now)).notes
          = (match data.notes with
             | some v => some v
             | none => old.notes) := by
  refine ⟨rfl, rfl, rfl, ?_, ?_, ?_, ?_, ?_, ?_, ?_, ?_, ?_, ?_⟩
  · cases hs : data.score with
    | none => simp [_update_trading_universe, hs]
    | some s =>
      by_cases h0 : (0 : Int) < s <;>
        simp [_update_trading_universe, hs, h0]
  · by_cases h0 : 0 < data.score.getD 0 <;>
      simp [applyUpsert, updField, _update_trading_universe, h0]
  · cases ha : data.is_active with
    | none => simp [_update_trading_universe, ha]
    | some b => cases b <;> simp [_update_trading_universe, ha]
  · cases ha : data.is_active with
    | none => simp [applyUpsert, updField, _update_trading_universe, ha]
    | some b => cases b <;> simp [applyUpsert, updField, _update_trading_universe, ha]
  · cases hc : data.company_name <;>
      simp [applyUpsert, updField, _update_trading_universe, hc]
  · cases hc : data.sector <;>
      simp [applyUpsert, updField, _update_trading_universe, hc]
  · cases hc : data.category <;>
      simp [applyUpsert, updField, _update_trading_universe, hc]
  · cases hc : data.score <;>
      simp [applyUpsert, updField, _update_trading_universe, hc]
  · cases hc : data.is_active <;>
      simp [applyUpsert, updField, _update_trading_universe, hc]
  · cases hc : data.notes <;>
      simp [applyUpsert, updField, _update_trading_universe, hc]

/-- C7: a query returns the count together with the records; every returned
record satisfies the present filters (`is_active` exact, `min_score` /
`max_score` inclusive, `category` exact); the result is capped at `limit`
(default 100) and ordered by score descending. On the store holding three
active records scoring 90/75/60 and one inactive scoring 95, the filters
`{is_active: true, min_score: 70, limit: 50}` return exactly the two
records ordered [90, 75]. -/
theorem c7_query_semantics (f : QueryFilters) (store : List UniverseRow) :
    (_get_trading_universe f store).count
        = (_get_trading_universe f store).stocks.length
      ∧ (_get_trading_universe f store).stocks.length ≤ f.limit.getD 100
      ∧ (_get_trading_universe f store).stocks.all (rowMatches f) = true
      ∧ List.Pairwise (fun a b => b.score ≤ a.score)
          (_get_trading_universe f store).stocks
      ∧ _get_trading_universe ⟨some true, some 70, none, none, some 50⟩
            [⟨"AAA", 90, true, "ai_chip"⟩, ⟨"BBB", 75, true, "ai_software"⟩,
             ⟨"CCC", 60, true, "ai_cloud"⟩, ⟨"DDD", 95, false, "ai_chip"⟩]
          = { count := 2,
              stocks := [⟨"AAA", 90, true, "ai_chip"⟩,
                         ⟨"BBB", 75, true, "ai_software"⟩] } := by
  refine ⟨rfl, List.length_take_le _ _, ?_, ?_, by decide⟩
  · rw [List.all_eq_true]
    intro x hx
    have hx2 : x ∈ orderScoreDesc (store.filter (rowMatches f)) :=
      (List.take_sublist _ _).subset hx
    have hx3 : x ∈ store.filter (rowMatches f) :=
      (List.perm_insertionSort rowGe _).subset hx2
    exact (List.mem_filter.mp hx3).2
  · have hs : List.Pairwise rowGe
        (orderScoreDesc (store.filter (rowMatches f))) :=
      List.sorted_insertionSort rowGe _
    exact (List.Pairwise.sublist (List.take_sublist _ _) hs).imp (fun h => h)

/-- Pointwise bounded sums: two equal-length lists with pointwise-dominated
mapped values have dominated sums. -/
theorem mapSum_le_of_pointwise {α : Type} (g : α → Nat) :
    ∀ (l1 l2 : List α), l1.length = l2.length →
      (∀ (i : Nat) (h1 : i < l1.length) (h2 : i < l2.length),
        g (l1.get ⟨i, h1⟩) ≤ g (l2.get ⟨i, h2⟩)) →
      (l1.map g).sum ≤ (l2.map g).sum := by
  intro l1
  induction l1 with
  | nil =>
    intro l2 hlen _
    cases l2 with
    | nil => simp
    | cons b l2 => simp at hlen
  | cons a l1 ih =>
    intro l2 hlen hp
    cases l2 with
    | nil => simp at hlen
    | cons b l2 =>
      simp only [List.map_cons, List.sum_cons]
      have h0 : g a ≤ g b := hp 0 (by simp) (by simp)
      have hrest : (l1.map g).sum ≤ (l2.map g).sum := by
        apply ih l2 (by simpa using hlen)
        intro i h1 h2
        exact hp (i + 1) (by simpa using Nat.succ_lt_succ h1)
          (by simpa using Nat.succ_lt_succ h2)
      exact Nat.add_le_add h0 hrest

/-- An article whose matched keywords only grow scores at least as much. -/
theorem articleScore_mono (a b : Article)
    (h : ∀ k, strContains (articleText a) k = true →
        strContains (articleText b) k = true) :
    articleScore a ≤ articleScore b := by
  rw [articleScore_eq_any, articleScore_eq_any]
  exact Nat.add_le_add
    (if_le_if 10 (any_mono tier1Keywords (fun k => h k)))
    (if_le_if 5 (any_mono tier2Keywords (fun k => h k)))

/-- Indexing into the 10-article window is indexing into the full list. -/
theorem take10_get_eq (l : List Article) (i : Nat)
    (hi : i < (l.take 10).length) :
    ∃ h : i < l.length, (l.take 10).get ⟨i, hi⟩ = l.get ⟨i, h⟩ := by
  have h10 : i < 10 := lt_of_lt_of_le hi (List.length_take_le 10 l)
  have hl : i < l.length := lt_of_lt_of_le hi (List.take_sublist 10 l).length_le
  exact ⟨hl, (List.get_take l hl h10).symm⟩

/-- News score is monotone under pointwise growth of keyword matches. -/
theorem newsScore_mono (l1 l2 : List Article)
    (hlen : l1.length = l2.length)
    (h : ∀ (i : Nat) (h1 : i < l1.length) (h2 : i < l2.length) (k : String),
      strContains (articleText (l1.get ⟨i, h1⟩)) k = true →
      strContains (articleText (l2.get ⟨i, h2⟩)) k = true) :
    newsScore l1 ≤ newsScore l2 := by
  unfold newsScore
  apply mapSum_le_of_pointwise articleScore (l1.take 10) (l2.take 10)
    (by simp [hlen])
  intro i hi1 hi2
  obtain ⟨ha1, he1⟩ := take10_get_eq l1 i hi1
  obtain ⟨ha2, he2⟩ := take10_get_eq l2 i hi2
  rw [he1, he2]
  exact articleScore_mono _ _ (h i ha1 ha2)

/-- Description score is monotone under growth of keyword matches. -/
theorem descScore_mono (d1 d2 : String)
    (h : ∀ k, strContains (strLower d1) k = true →
        strContains (strLower d2) k = true) :
    descScore d1 ≤ descScore d2 := by
  unfold descScore matchedKeywords
  exact Nat.add_le_add
    (Nat.mul_le_mul_left 10
      (List.monotone_filter_right _ (fun a ha => h a ha)).length_le)
    (Nat.mul_le_mul_left 5
      (List.monotone_filter_right _ (fun a ha => h a ha)).length_le)

/-- C8: the keyword-stage scan score is monotonically non-decreasing in the
keyword matches found — enlarging the set of keywords matching the
description and each scanned article never lowers the score — and is always
capped at 100 (it is a natural number, hence also ≥ 0). -/
theorem c8_score_monotone_capped (t : String) (p1 p2 : Profile)
    (l1 l2 : List Article)
    (hlen : l1.length = l2.length)
    (hdesc : ∀ k, strContains (strLower p1.description) k = true →
        strContains (strLower p2.description) k = true)
    (harts : ∀ (i : Nat) (h1 : i < l1.length) (h2 : i < l2.length) (k : String),
        strContains (articleText (l1.get ⟨i, h1⟩)) k = true →
        strContains (articleText (l2.get ⟨i, h2⟩)) k = true) :
    (_keyword_scoring t (some p1) (some l1)).score
        ≤ (_keyword_scoring t (some p2) (some l2)).score
      ∧ (_keyword_scoring t (some p1) (some l1)).score ≤ 100 := by
  constructor
  · show min (kwRawScore (some p1) (some l1)) 100
        ≤ min (kwRawScore (some p2) (some l2)) 100
    apply min_le_min _ (le_refl 100)
    show descScore p1.description + newsScore l1
        ≤ descScore p2.description + newsScore l2
    exact Nat.add_le_add (descScore_mono _ _ hdesc)
      (newsScore_mono _ _ hlen harts)
  · show min (kwRawScore (some p1) (some l1)) 100 ≤ 100
    exact min_le_right _ _

/-- Witness for C8 at concrete inputs (identical description and empty news
lists). -/
theorem c8_score_monotone_capped_witness :
    (_keyword_scoring "T" (some ⟨none, none, "llm"⟩) (some [])).score
        ≤ (_keyword_scoring "T" (some ⟨none, none, "llm"⟩) (some [])).score
      ∧ (_keyword_scoring "T" (some ⟨none, none, "llm"⟩) (some [])).score ≤ 100 :=
  c8_score_monotone_capped "T" ⟨none, none, "llm"⟩ ⟨none, none, "llm"⟩ [] []
    rfl (fun _ h => h) (fun i h1 _ _ _ => absurd h1 (Nat.not_lt_zero i))

/-- C9: in every output the shipped scanner returns — keyword-stage results,
and results whose score passed through the borderline-escalation stage (whose
stub leaves the score unchanged) — the `has_ai` flag is true exactly when
the final score is at least 40. -/
theorem c9_has_ai_iff_score_ge_40 (t : String) (p : Option Profile)
    (n : Option (List Article)) :
    (_scan_stock_for_ai t p n).hasAiOf
      = decide (40 ≤ (_scan_stock_for_ai t p n).scoreOf) := by
  have hk : (_keyword_scoring (normTicker t) p n).has_ai
      = decide (40 ≤ (_keyword_scoring (normTicker t) p n).score) := rfl
  simp only [_scan_stock_for_ai, _scan_stock_for_ai_with, okValidator]
  split
  · exact hk
  · exact hk

/-- A flatten of all-empty lists is empty. -/
theorem flatten_eq_nil_of_all_nil {β : Type} :
    ∀ (l : List (List β)), (∀ x ∈ l, x = []) → l.flatten = [] := by
  intro l
  induction l with
  | nil => intro _; rfl
  | cons a l ih =>
    intro h
    have ha : a = [] := h a (by simp)
    have hl : l.flatten = [] := ih (fun x hx => h x (by simp [hx]))
    simp [ha, hl]

/-- A zero-scoring article has no tier-1 hit. -/
theorem articleScore_zero_tier1_none (a : Article)
    (h : articleScore a = 0) : articleTier1Hit a = none := by
  unfold articleScore at h
  cases h1 : articleTier1Hit a with
  | none => rfl
  | some k =>
    cases h2 : articleTier2Hit a <;> simp [h1, h2] at h

/-- A zero description score leaves no description evidence. -/
theorem descEvidence_nil_of_zero (d : String) (h : descScore d = 0) :
    descEvidence d = [] := by
  unfold descScore at h
  have hx : (matchedKeywords tier1Keywords (strLower d)).length = 0 := by omega
  have hy : (matchedKeywords tier2Keywords (strLower d)).length = 0 := by omega
  unfold descEvidence
  rw [List.length_eq_zero.mp hx, List.length_eq_zero.mp hy]
  rfl

/-- A zero news score leaves no news evidence. -/
theorem newsEvidence_nil_of_zero (arts : List Article)
    (h : newsScore arts = 0) : newsEvidence arts = [] := by
  unfold newsScore at h
  have hall := List.sum_eq_zero_iff.mp h
  unfold newsEvidence
  apply flatten_eq_nil_of_all_nil
  intro x hx
  rcases List.mem_map.mp hx with ⟨a, ha, rfl⟩
  have hsc : articleScore a = 0 :=
    hall (articleScore a) (List.mem_map_of_mem articleScore ha)
  unfold articleEvidence
  rw [articleScore_zero_tier1_none a hsc]

/-- A zero raw score leaves the evidence list empty. -/
theorem kwEvidence_nil_of_raw_zero (p : Option Profile)
    (n : Option (List Article)) (h : kwRawScore p n = 0) :
    kwEvidence p n = [] := by
  cases p with
  | none =>
    cases n with
    | none => rfl
    | some arts =>
      have h' : 0 + newsScore arts = 0 := h
      show ([] : List String) ++ newsEvidence arts = []
      rw [newsEvidence_nil_of_zero arts (by omega)]
      rfl
  | some pp =>
    cases n with
    | none =>
      have h' : descScore pp.description + 0 = 0 := h
      show descEvidence pp.description ++ ([] : List String) = []
      rw [descEvidence_nil_of_zero pp.description (by omega)]
      rfl
    | some arts =>
      have h' : descScore pp.description + newsScore arts = 0 := h
      show descEvidence pp.description ++ newsEvidence arts = []
      rw [descEvidence_nil_of_zero pp.description (by omega),
        newsEvidence_nil_of_zero arts (by omega)]
      rfl

/-- Pointwise-equal images give equal maps. -/
theorem map_eq_of_pointwise {α β : Type} (g : α → β) :
    ∀ (l1 l2 : List α), l1.length = l2.length →
      (∀ (i : Nat) (h1 : i < l1.length) (h2 : i < l2.length),
        g (l1.get ⟨i, h1⟩) = g (l2.get ⟨i, h2⟩)) →
      l1.map g = l2.map g := by
  intro l1
  induction l1 with
  | nil =>
    intro l2 hlen _
    cases l2 with
    | nil => rfl
    | cons b l2 => simp at hlen
  | cons a l1 ih =>
    intro l2 hlen hp
    cases l2 with
    | nil => simp at hlen
    | cons b l2 =>
      simp only [List.map_cons]
      have h0 : g a = g b := hp 0 (by simp) (by simp)
      have hrest : l1.map g = l2.map g :=
        ih l2 (by simpa using hlen) (fun i h1 h2 =>
          hp (i + 1) (by simpa using Nat.succ_lt_succ h1)
            (by simpa using Nat.succ_lt_succ h2))
      rw [h0, hrest]

/-- News evidence depends only on the per-article tier-1 hits. -/
theorem newsEvidence_eq_of_tier1 (l1 l2 : List Article)
    (hlen : l1.length = l2.length)
    (h : ∀ (i : Nat) (h1 : i < l1.length) (h2 : i < l2.length),
      articleTier1Hit (l1.get ⟨i, h1⟩) = articleTier1Hit (l2.get ⟨i, h2⟩)) :
    newsEvidence l1 = newsEvidence l2 := by
  unfold newsEvidence
  rw [map_eq_of_pointwise articleEvidence (l1.take 10) (l2.take 10)
    (by simp [hlen])]
  intro i hi1 hi2
  obtain ⟨ha1, he1⟩ := take10_get_eq l1 i hi1
  obtain ⟨ha2, he2⟩ := take10_get_eq l2 i hi2
  rw [he1, he2]
  unfold articleEvidence
  rw [h i ha1 ha2]

/-- Whatever the guard, defaulting an optional constant to itself gives the
constant. -/
theorem getD_if_same {c : Prop} [Decidable c] (x : String) :
    (if c then some x else none).getD x = x := by
  split <;> rfl

/-- C10: a tier-2 keyword found in an article with no tier-1 hit adds 5
points and no evidence entry; consequently the stored evidence and the
category decision are unchanged when the news list is replaced by one with
the same per-article tier-1 hits (tier-2 news hits never influence them). -/
theorem c10_tier2_news_no_evidence (t : String) (p : Option Profile)
    (l1 l2 : List Article) (a : Article)
    (hlen : l1.length = l2.length)
    (ht1 : ∀ (i : Nat) (h1 : i < l1.length) (h2 : i < l2.length),
        articleTier1Hit (l1.get ⟨i, h1⟩) = articleTier1Hit (l2.get ⟨i, h2⟩))
    (ha1 : articleTier1Hit a = none)
    (ha2 : (articleTier2Hit a).isSome = true) :
    articleScore a = 5
      ∧ articleEvidence a = []
      ∧ (_keyword_scoring t p (some l1)).evidence
          = (_keyword_scoring t p (some l2)).evidence
      ∧ (_keyword_scoring t p (some l1)).category
          = (_keyword_scoring t p (some l2)).category := by
  have hEv : kwEvidence p (some l1) = kwEvidence p (some l2) := by
    show (match p with
          | some pp => descEvidence pp.description
          | none => ([] : List String)) ++ newsEvidence l1
        = (match p with
          | some pp => descEvidence pp.description
          | none => ([] : List String)) ++ newsEvidence l2
    rw [newsEvidence_eq_of_tier1 l1 l2 hlen ht1]
  refine ⟨?_, ?_, ?_, ?_⟩
  · unfold articleScore
    rcases Option.isSome_iff_exists.mp ha2 with ⟨k, hk⟩
    simp [ha1, hk]
  · unfold articleEvidence
    rw [ha1]
  · show String.intercalate " | " ((kwEvidence p (some l1)).take 5)
        = String.intercalate " | " ((kwEvidence p (some l2)).take 5)
    rw [hEv]
  · show (if 0 < min (kwRawScore p (some l1)) 100
          then some (_categorize_stock (kwEvidence p (some l1))) else none).getD
            "ai_beneficiary"
        = (if 0 < min (kwRawScore p (some l2)) 100
          then some (_categorize_stock (kwEvidence p (some l2))) else none).getD
            "ai_beneficiary"
    rw [hEv]
    by_cases h1 : kwRawScore p (some l1) = 0
    · have e2 : kwEvidence p (some l2) = [] :=
        hEv ▸ kwEvidence_nil_of_raw_zero p (some l1) h1
      rw [e2]
      have hc : _categorize_stock ([] : List String) = "ai_beneficiary" := rfl
      rw [hc, getD_if_same, getD_if_same]
    · by_cases h2 : kwRawScore p (some l2) = 0
      · have e2 : kwEvidence p (some l2) = [] :=
          kwEvidence_nil_of_raw_zero p (some l2) h2
        rw [e2]
        have hc : _categorize_stock ([] : List String) = "ai_beneficiary" := rfl
        rw [hc, getD_if_same, getD_if_same]
      · have p1 : 0 < min (kwRawScore p (some l1)) 100 := by omega
        have p2 : 0 < min (kwRawScore p (some l2)) 100 := by omega
        simp [p1, p2]

/-- Witness for C10: an article matching only the tier-2 keyword
"data center" scores 5 with no evidence, and swapping it for a no-hit
article leaves the scan evidence unchanged. -/
theorem c10_tier2_news_no_evidence_witness :
    articleScore ⟨"data center", ""⟩ = 5
      ∧ (_keyword_scoring "T" none (some [⟨"data center", ""⟩])).evidence
          = (_keyword_scoring "T" none (some [⟨"", ""⟩])).evidence := by
  have h := c10_tier2_news_no_evidence "T" none
    [⟨"data center", ""⟩] [⟨"", ""⟩] ⟨"data center", ""⟩ rfl
    (fun i h1 h2 => by
      match i with
      | 0 => rfl
      | j + 1 => exact absurd (Nat.lt_of_succ_lt_succ h1) (Nat.not_lt_zero j))
    (by decide) (by decide)
  exact ⟨h.1, h.2.2.1⟩
